import Mathlib

/-!
Verification of the Game of Life simulation engine found in this repository
(`life.cpp` and its revisions).  The C++ `Grid<int>` of cell ages is embedded
as a row-major list of rows of integers; the engine functions
(`countNeighborCell`, `cloneGrid`, `generateNextGenerationGrid`,
`isStableGrid`, `advanceGrid`) and the two driving loops are translated
directly from the source.  The constant `kMaxAge` lives in `life-constants.h`,
which is not among the sources; the spec describes it as a positive integer
constant, so every definition takes it as an explicit parameter.
-/

namespace Conway

/-- Shallow embedding of the Stanford `Grid<int>`: a row-major list of rows. -/
abbrev Grid : Type := List (List Int)

/-- `grid.numRows()`. -/
def numRows (g : Grid) : Nat := g.length

/-- `grid.numCols()`: for a rectangular grid this is the length of any row;
we read it off the first row (a zero-row grid has zero columns). -/
def numCols (g : Grid) : Nat := (g.headD []).length

/-- Length of row `r` (0 when `r` is out of range). -/
def rowLen (g : Grid) (r : Nat) : Nat := (g.getD r []).length

/-- `grid[r][c]`, totalized with default `0` (a dead cell) outside the grid. -/
def getCell (g : Grid) (r c : Nat) : Int := (g.getD r []).getD c 0

/-- `grid[r][c] = v`, a no-op outside the grid. -/
def setCell (g : Grid) (r c : Nat) (v : Int) : Grid :=
  g.set r ((g.getD r []).set c v)

/-- Rectangularity: every row has `numCols g` cells.  Always true of the C++
`Grid<int>`, which is rectangular by construction. -/
def WF (g : Grid) : Prop := ∀ row ∈ g, row.length = numCols g

/-- `grid.inBounds(y, x)`: `0 ≤ y < numRows ∧ 0 ≤ x < numCols`.  The C++
indices are `int`, so the arguments are integers. -/
def inBounds (g : Grid) (y x : Int) : Bool :=
  decide (0 ≤ y ∧ y < (numRows g : Int) ∧ 0 ≤ x ∧ x < (numCols g : Int))

/-- The eight `(drow, dcol)` offsets visited by the two nested loops of
`countNeighborCell` (`drow, dcol ∈ {-1,0,1}`, skipping `(0,0)`), in loop
order. -/
def mooreDeltas : List (Int × Int) :=
  [(-1, -1), (-1, 0), (-1, 1), (0, -1), (0, 1), (1, -1), (1, 0), (1, 1)]

/-- `countNeighborCell(grid, row, col)`: walks the eight Moore offsets and
increments `count` whenever the offset position is in bounds and holds a
value `> 0`. -/
def countNeighborCell (grid : Grid) (row col : Int) : Int :=
  mooreDeltas.foldl
    (fun count d =>
      let y := row + d.1
      let x := col + d.2
      if inBounds grid y x = true ∧ 0 < getCell grid y.toNat x.toNat then
        count + 1
      else count)
    0

/-- Builds a fresh `rows × cols` grid whose cell `(r, c)` holds `f r c`;
embeds the `Grid(rows, cols)` constructor followed by a full fill loop. -/
def mkGrid (rows cols : Nat) (f : Nat → Nat → Int) : Grid :=
  (List.range rows).map fun r => (List.range cols).map fun c => f r c

/-- `cloneGrid(grid)`: a fresh grid of the same dimensions with every cell
copied. -/
def cloneGrid (grid : Grid) : Grid :=
  mkGrid (numRows grid) (numCols grid) fun r c => getCell grid r c

/-- Row-major list of all cell positions of `grid`, the iteration order of
the nested `for` loops. -/
def gridIndices (grid : Grid) : List (Nat × Nat) :=
  (List.range (numRows grid)).flatMap fun r =>
    (List.range (numCols grid)).map fun c => (r, c)

/-- The loop body of `generateNextGenerationGrid`: given the input `grid`,
the grid built so far and the current position, apply the neighbor-count
rules of the source.  The neighbor count and the age tests read `grid`; the
writes (and the `+= 1` read) go to `newGrid`. -/
def genBody (kMaxAge : Int) (grid newGrid : Grid) (rc : Nat × Nat) : Grid :=
  let row : Nat := rc.1
  let col : Nat := rc.2
  let numNeighborCell := countNeighborCell grid (row : Int) (col : Int)
  if numNeighborCell ≤ 1 ∨ numNeighborCell > 3 then
    -- kill a cell if it is lonely or overcrowded
    setCell newGrid row col 0
  else if numNeighborCell = 2 then
    -- the cell remains
    if 0 < getCell grid row col ∧ getCell grid row col < kMaxAge then
      setCell newGrid row col (getCell newGrid row col + 1)
    else newGrid
  else
    -- bear a new cell
    if getCell grid row col < kMaxAge then
      setCell newGrid row col (getCell newGrid row col + 1)
    else newGrid

/-- `generateNextGenerationGrid(grid)` from the latest revision: clone the
input, then for each cell compute the live-neighbor count *from the input
grid* and write the new value into the clone (`newGrid[row][col] += 1` reads
the clone's current value, which the clone initialized from the input). -/
def generateNextGenerationGrid (kMaxAge : Int) (grid : Grid) : Grid :=
  (gridIndices grid).foldl (genBody kMaxAge grid) (cloneGrid grid)

/-- The per-cell outcome the loop body of `generateNextGenerationGrid`
realizes when no aliasing occurs: the branch structure of the source applied
to the cell's input age and its input-grid neighbor count. -/
def nextCell (kMaxAge age n : Int) : Int :=
  if n ≤ 1 ∨ n > 3 then 0
  else if n = 2 then (if 0 < age ∧ age < kMaxAge then age + 1 else age)
  else (if age < kMaxAge then age + 1 else age)

/-- `isStableGrid(currGrid, newGrid)` from the latest revision: scan
`newGrid` for a cell with `0 < cell < kMaxAge` (return `false` if found),
otherwise compare the two grids with `operator==`. -/
def isStableGrid (kMaxAge : Int) (currGrid newGrid : Grid) : Bool :=
  if newGrid.any (fun row => row.any fun cell => decide (0 < cell ∧ cell < kMaxAge))
  then false
  else decide (currGrid = newGrid)

/-- `isStableGrid` from the earlier revision (`life.cpp`): scan `currGrid`'s
ages instead, then require `currGrid == newGrid`. -/
def isStableGridPrev (kMaxAge : Int) (currGrid newGrid : Grid) : Bool :=
  if currGrid.any (fun row => row.any fun cell => decide (0 < cell ∧ cell < kMaxAge))
  then false
  else decide (currGrid = newGrid)

/-- `advanceGrid(disp, grid)`: computes the next generation, decides whether
the simulation can still advance, installs the new grid as the current one
(the C++ assigns `grid = newGrid` through the reference) and returns the
flag.  The display argument only triggers drawing and is dropped. -/
def advanceGrid (kMaxAge : Int) (grid : Grid) : Grid × Bool :=
  let newGrid := generateNextGenerationGrid kMaxAge grid
  let canAdvance := !isStableGrid kMaxAge grid newGrid
  (newGrid, canAdvance)

/-- The two event kinds `runAnimation` waits for: a timer tick or a mouse
press. -/
inductive AnimEvent : Type
  | timer : AnimEvent
  | mousePressed : AnimEvent
deriving DecidableEq

/-- `runAnimation(disp, grid, ms)`: the blocking event loop, modelled on a
finite prefix of the event stream delivered by `waitForEvent`.  A timer tick
advances the grid and breaks when the grid stopped advancing; a mouse press
breaks at once.  Returns the grid held when the loop ends (or when the
modelled event prefix runs out). -/
def runAnimation (kMaxAge : Int) : List AnimEvent → Grid → Grid
  | [], g => g
  | AnimEvent.timer :: rest, g =>
      let step := advanceGrid kMaxAge g
      if step.2 then runAnimation kMaxAge rest step.1 else step.1
  | AnimEvent.mousePressed :: _, g => g

/-- How a run of `runManualAnimation` ends: `stopped` is the `break` path
(control returns to the caller with the grid shown), `exited` is the
`exit(0)` path on an unsupported command, `pending` means the modelled input
prefix ran out while the loop was still waiting. -/
inductive ManualOutcome : Type
  | stopped : Grid → ManualOutcome
  | exited : ManualOutcome
  | pending : Grid → ManualOutcome
deriving DecidableEq

/-- `runManualAnimation(disp, grid)` from the latest revision, modelled on
the finite list of lines read from `cin`: an empty line advances the grid
(breaking when the advance reports stability), `"quit"` breaks without
advancing (`&&` short-circuits, so `advanceGrid` is never called), and any
other line prints an error and exits the program. -/
def runManualAnimation (kMaxAge : Int) : List String → Grid → ManualOutcome
  | [], g => ManualOutcome.pending g
  | line :: rest, g =>
      if line.isEmpty then
        let step := advanceGrid kMaxAge g
        if step.2 then runManualAnimation kMaxAge rest step.1
        else ManualOutcome.stopped step.1
      else if line = "quit" then ManualOutcome.stopped g
      else ManualOutcome.exited

/-- The speed-selection branch of `main`: `"1"`, `"2"`, `"3"` map to the
tick intervals 1000 ms, 500 ms and 100 ms; any other line reaches the
`exit(1)` branch, modelled as `none`. -/
def selectSpeed (line : String) : Option Int :=
  if line = "1" then some 1000
  else if line = "2" then some 500
  else if line = "3" then some 100
  else none

/-- `stringToInteger` from the Stanford library: parses a line as an
integer, failing (the library raises an error) on anything else. -/
def stringToInteger (line : List Char) : Option Int :=
  (String.mk line).toInt?

/-- The header loop of `readGridFromFile`: skip leading lines whose first
character is `'#'` (an empty C++ `std::string` yields `'\x00'` at index 0,
which is not `'#'`). -/
def skipComments : List (List Char) → List (List Char)
  | [] => []
  | line :: rest =>
      if line.headD '\x00' = '#' then skipComments rest else line :: rest

/-- `readGridFromFile(filename)` on the file's lines, each a list of
characters: after the comment-skipping loop the next two lines give the
height and the width, then each of the next `height` lines fills a row, a
cell becoming `Occupied = 1` exactly when its character is `'X'` and
`Empty = 0` otherwise (missing lines or short lines read as dead cells).
`none` models the `exit(1)` / library-error paths (unreadable header,
negative dimensions). -/
def readGridFromFile (file : List (List Char)) : Option Grid :=
  match skipComments file with
  | heightLine :: widthLine :: rest =>
      match stringToInteger heightLine, stringToInteger widthLine with
      | some height, some width =>
          if 0 ≤ height ∧ 0 ≤ width then
            some (mkGrid height.toNat width.toNat fun r c =>
              if (rest.getD r []).getD c '\x00' = 'X' then 1 else 0)
          else none
      | _, _ => none
  | _ => none

/-- `generateRandomGrid()`: dimensions and per-cell random draws are
modelled as oracle parameters — `flip r c` is the coin `boolGen` and
`ageGen r c` the draw from `uniform_int_distribution(1, kMaxAge)`; a cell is
`ageGen`'s draw when the coin lands `1` and `Empty = 0` otherwise. -/
def generateRandomGrid (height width : Nat) (flip : Nat → Nat → Bool)
    (ageGen : Nat → Nat → Int) : Grid :=
  mkGrid height width fun r c => if flip r c then ageGen r c else 0

/-! ### Structural lemmas about the grid embedding -/

lemma numCols_eq_rowLen_zero (g : Grid) : numCols g = rowLen g 0 := by
  cases g <;> simp [numCols, rowLen]

lemma getCell_eq_zero_of_rowLen_le {g : Grid} {r c : Nat} (h : rowLen g r ≤ c) :
    getCell g r c = 0 := by
  simp only [getCell, rowLen] at *
  exact List.getD_eq_default _ _ h

lemma numRows_setCell (g : Grid) (r c : Nat) (v : Int) :
    numRows (setCell g r c v) = numRows g := by
  simp [numRows, setCell]

lemma rowLen_setCell (g : Grid) (r c : Nat) (v : Int) (i : Nat) :
    rowLen (setCell g r c v) i = rowLen g i := by
  simp only [rowLen, setCell, List.getD_eq_getElem?_getD, List.getElem?_set]
  by_cases hir : r = i
  · subst hir
    by_cases hr : r < g.length
    · simp [hr, List.getElem?_eq_getElem hr, List.getD_eq_getElem?_getD]
    · simp [hr, List.getElem?_eq_none (Nat.le_of_not_lt hr)]
  · simp [hir]

lemma getCell_setCell_self {g : Grid} {r c : Nat} (v : Int)
    (hr : r < numRows g) (hc : c < rowLen g r) :
    getCell (setCell g r c v) r c = v := by
  simp only [getCell, setCell, List.getD_eq_getElem?_getD,
    List.getElem?_set_self hr, Option.getD_some]
  have hc' : c < (g[r]?.getD ([] : List Int)).length := by
    simpa [rowLen, List.getD_eq_getElem?_getD] using hc
  rw [List.getElem?_set_self hc', Option.getD_some]

lemma getCell_setCell_ne {g : Grid} {r c r' c' : Nat} (v : Int)
    (h : r ≠ r' ∨ c ≠ c') :
    getCell (setCell g r c v) r' c' = getCell g r' c' := by
  rcases h with h | h
  · simp [getCell, setCell, List.getD_eq_getElem?_getD, List.getElem?_set_ne h]
  · simp only [getCell, setCell, List.getD_eq_getElem?_getD]
    by_cases hrr : r = r'
    · subst hrr
      by_cases hlt : r < g.length
      · simp [List.getElem?_set_self hlt, List.getD_eq_getElem?_getD,
          List.getElem?_set_ne h]
      · rw [List.getElem?_set]
        simp [hlt, List.getElem?_eq_none (Nat.le_of_not_lt hlt)]
    · rw [List.getElem?_set_ne hrr]

lemma numRows_mkGrid (rows cols : Nat) (f : Nat → Nat → Int) :
    numRows (mkGrid rows cols f) = rows := by
  simp [mkGrid, numRows]

lemma rowLen_mkGrid (rows cols : Nat) (f : Nat → Nat → Int) (r : Nat) :
    rowLen (mkGrid rows cols f) r = if r < rows then cols else 0 := by
  simp only [rowLen, mkGrid, List.getD_eq_getElem?_getD, List.getElem?_map]
  by_cases hr : r < rows
  · simp [List.getElem?_range hr, hr]
  · have hnone : (List.range rows)[r]? = none :=
      List.getElem?_eq_none (by simpa using Nat.le_of_not_lt hr)
    simp [hnone, hr]

lemma getCell_mkGrid (rows cols : Nat) (f : Nat → Nat → Int) (r c : Nat) :
    getCell (mkGrid rows cols f) r c =
      if r < rows ∧ c < cols then f r c else 0 := by
  simp only [getCell, mkGrid, List.getD_eq_getElem?_getD, List.getElem?_map]
  by_cases hr : r < rows
  · simp only [List.getElem?_range hr, Option.map_some', Option.getD_some,
      List.getElem?_map]
    by_cases hc : c < cols
    · simp [List.getElem?_range hc, hr, hc]
    · have hnone : (List.range cols)[c]? = none :=
        List.getElem?_eq_none (by simpa using Nat.le_of_not_lt hc)
      simp [hnone, hr, hc]
  · have hnone : (List.range rows)[r]? = none :=
      List.getElem?_eq_none (by simpa using Nat.le_of_not_lt hr)
    simp [hnone, hr]

lemma mem_gridIndices {g : Grid} {p : Nat × Nat} :
    p ∈ gridIndices g ↔ p.1 < numRows g ∧ p.2 < numCols g := by
  obtain ⟨r, c⟩ := p
  simp only [gridIndices, List.mem_flatMap, List.mem_map, List.mem_range]
  constructor
  · rintro ⟨a, ha, b, hb, hp⟩
    obtain ⟨rfl, rfl⟩ := Prod.mk.injEq .. ▸ hp
    exact ⟨ha, hb⟩
  · rintro ⟨hr, hc⟩
    exact ⟨r, hr, c, hc, rfl⟩

lemma ne_components {q p : Nat × Nat} (h : q ≠ p) : q.1 ≠ p.1 ∨ q.2 ≠ p.2 := by
  by_contra hcon
  push_neg at hcon
  exact h (Prod.ext hcon.1 hcon.2)

lemma nodup_gridIndices (g : Grid) : (gridIndices g).Nodup := by
  rw [gridIndices, List.nodup_flatMap]
  refine ⟨fun r _ => ?_, ?_⟩
  · exact (List.nodup_range _).map (fun a b h => by simpa using congrArg Prod.snd h)
  · refine (List.nodup_range _).imp ?_
    intro a b hab
    intro p hpa hpb
    simp only [Function.onFun, List.mem_map] at hpa hpb
    obtain ⟨c, _, rfl⟩ := hpa
    obtain ⟨c', _, h⟩ := hpb
    exact hab (congrArg Prod.fst h).symm

/-! ### The next-generation fold computes the per-cell rule pointwise -/

lemma genBody_numRows (k : Int) (g acc : Grid) (p : Nat × Nat) :
    numRows (genBody k g acc p) = numRows acc := by
  dsimp only [genBody]
  split_ifs <;> simp [numRows_setCell]

lemma genBody_rowLen (k : Int) (g acc : Grid) (p : Nat × Nat) (i : Nat) :
    rowLen (genBody k g acc p) i = rowLen acc i := by
  dsimp only [genBody]
  split_ifs <;> simp [rowLen_setCell]

lemma genBody_getCell_ne (k : Int) (g acc : Grid) (p q : Nat × Nat)
    (h : q.1 ≠ p.1 ∨ q.2 ≠ p.2) :
    getCell (genBody k g acc p) q.1 q.2 = getCell acc q.1 q.2 := by
  dsimp only [genBody]
  split_ifs <;>
    first
      | rfl
      | exact getCell_setCell_ne _ (h.imp Ne.symm Ne.symm)

lemma genBody_getCell_self (k : Int) (g acc : Grid) (p : Nat × Nat)
    (hr : p.1 < numRows acc) (hc : p.2 < rowLen acc p.1)
    (hacc : getCell acc p.1 p.2 = getCell g p.1 p.2) :
    getCell (genBody k g acc p) p.1 p.2
      = nextCell k (getCell g p.1 p.2) (countNeighborCell g p.1 p.2) := by
  dsimp only [genBody, nextCell]
  split_ifs
  · exact getCell_setCell_self _ hr hc
  · rw [getCell_setCell_self _ hr hc, hacc]
  · exact hacc
  · rw [getCell_setCell_self _ hr hc, hacc]
  · exact hacc

lemma genFold_invariant (k : Int) (g : Grid) :
    ∀ L : List (Nat × Nat), L.Nodup →
    (∀ p ∈ L, p.1 < numRows g ∧ p.2 < numCols g) →
    ∀ acc : Grid, numRows acc = numRows g →
    (∀ i, rowLen acc i = if i < numRows g then numCols g else 0) →
    (∀ p ∈ L, getCell acc p.1 p.2 = getCell g p.1 p.2) →
    numRows (L.foldl (genBody k g) acc) = numRows g ∧
    (∀ i, rowLen (L.foldl (genBody k g) acc) i
        = if i < numRows g then numCols g else 0) ∧
    (∀ p ∈ L, getCell (L.foldl (genBody k g) acc) p.1 p.2
        = nextCell k (getCell g p.1 p.2) (countNeighborCell g p.1 p.2)) ∧
    (∀ q : Nat × Nat, q ∉ L →
        getCell (L.foldl (genBody k g) acc) q.1 q.2 = getCell acc q.1 q.2) := by
  intro L
  induction L with
  | nil =>
    intro _ _ acc h1 h2 _
    exact ⟨h1, h2, by simp, fun q _ => rfl⟩
  | cons p L ih =>
    intro hnd hmem acc hrows hlen hacc
    have hp := hmem p (List.mem_cons_self p L)
    obtain ⟨hnp, hndL⟩ := List.nodup_cons.mp hnd
    have hrows' : numRows (genBody k g acc p) = numRows g := by
      rw [genBody_numRows, hrows]
    have hlen' : ∀ i, rowLen (genBody k g acc p) i
        = if i < numRows g then numCols g else 0 := fun i => by
      rw [genBody_rowLen]; exact hlen i
    have haccL : ∀ q ∈ L, getCell (genBody k g acc p) q.1 q.2 = getCell g q.1 q.2 := by
      intro q hq
      have hne : q.1 ≠ p.1 ∨ q.2 ≠ p.2 :=
        ne_components (fun h => hnp (h ▸ hq))
      rw [genBody_getCell_ne k g acc p q hne]
      exact hacc q (List.mem_cons_of_mem _ hq)
    obtain ⟨f1, f2, f3, f4⟩ :=
      ih hndL (fun q hq => hmem q (List.mem_cons_of_mem _ hq))
        (genBody k g acc p) hrows' hlen' haccL
    have hselfp : getCell (genBody k g acc p) p.1 p.2
        = nextCell k (getCell g p.1 p.2) (countNeighborCell g p.1 p.2) := by
      apply genBody_getCell_self
      · rw [hrows]; exact hp.1
      · rw [hlen p.1, if_pos hp.1]; exact hp.2
      · exact hacc p (List.mem_cons_self p L)
    refine ⟨by simpa using f1, by simpa using f2, ?_, ?_⟩
    · intro q hq
      rcases List.mem_cons.mp hq with rfl | hqL
      · rw [List.foldl_cons, f4 q hnp, hselfp]
      · rw [List.foldl_cons]
        exact f3 q hqL
    · intro q hq
      have hqp : q ≠ p := fun h => hq (h ▸ List.mem_cons_self p L)
      have hqL : q ∉ L := fun h => hq (List.mem_cons_of_mem _ h)
      rw [List.foldl_cons, f4 q hqL,
        genBody_getCell_ne k g acc p q (ne_components hqp)]

lemma cloneGrid_numRows (g : Grid) : numRows (cloneGrid g) = numRows g :=
  numRows_mkGrid _ _ _

lemma cloneGrid_rowLen (g : Grid) (i : Nat) :
    rowLen (cloneGrid g) i = if i < numRows g then numCols g else 0 :=
  rowLen_mkGrid _ _ _ _

lemma cloneGrid_getCell (g : Grid) {r c : Nat}
    (hr : r < numRows g) (hc : c < numCols g) :
    getCell (cloneGrid g) r c = getCell g r c := by
  rw [cloneGrid, getCell_mkGrid, if_pos ⟨hr, hc⟩]

lemma generateNext_numRows (k : Int) (g : Grid) :
    numRows (generateNextGenerationGrid k g) = numRows g :=
  (genFold_invariant k g (gridIndices g) (nodup_gridIndices g)
    (fun _ hp => mem_gridIndices.mp hp) (cloneGrid g) (cloneGrid_numRows g)
    (cloneGrid_rowLen g)
    (fun p hp => cloneGrid_getCell g (mem_gridIndices.mp hp).1
      (mem_gridIndices.mp hp).2)).1

lemma generateNext_rowLen (k : Int) (g : Grid) (i : Nat) :
    rowLen (generateNextGenerationGrid k g) i
      = if i < numRows g then numCols g else 0 :=
  (genFold_invariant k g (gridIndices g) (nodup_gridIndices g)
    (fun _ hp => mem_gridIndices.mp hp) (cloneGrid g) (cloneGrid_numRows g)
    (cloneGrid_rowLen g)
    (fun p hp => cloneGrid_getCell g (mem_gridIndices.mp hp).1
      (mem_gridIndices.mp hp).2)).2.1 i

lemma generateNext_getCell (k : Int) (g : Grid) {r c : Nat}
    (hr : r < numRows g) (hc : c < numCols g) :
    getCell (generateNextGenerationGrid k g) r c
      = nextCell k (getCell g r c) (countNeighborCell g r c) :=
  (genFold_invariant k g (gridIndices g) (nodup_gridIndices g)
    (fun _ hp => mem_gridIndices.mp hp) (cloneGrid g) (cloneGrid_numRows g)
    (cloneGrid_rowLen g)
    (fun p hp => cloneGrid_getCell g (mem_gridIndices.mp hp).1
      (mem_gridIndices.mp hp).2)).2.2.1 (r, c) (mem_gridIndices.mpr ⟨hr, hc⟩)

lemma generateNext_getCell_oob (k : Int) (g : Grid) {r c : Nat}
    (h : ¬(r < numRows g ∧ c < numCols g)) :
    getCell (generateNextGenerationGrid k g) r c = 0 := by
  apply getCell_eq_zero_of_rowLen_le
  rw [generateNext_rowLen]
  by_cases hr : r < numRows g
  · rw [if_pos hr]
    exact Nat.le_of_not_lt fun hc => h ⟨hr, hc⟩
  · rw [if_neg hr]
    exact Nat.zero_le _

lemma generateNext_numCols (k : Int) (g : Grid) :
    numCols (generateNextGenerationGrid k g) = numCols g := by
  rw [numCols_eq_rowLen_zero, generateNext_rowLen]
  by_cases h0 : 0 < numRows g
  · rw [if_pos h0]
  · rw [if_neg h0]
    have : g = [] := List.length_eq_zero.mp (Nat.eq_zero_of_not_pos h0)
    subst this
    rfl

/-! ### Characterization of the neighbor count -/

/-- The live-neighbor test of `countNeighborCell` at offset `d` from
`(row, col)`. -/
def liveAt (g : Grid) (row col : Int) (d : Int × Int) : Prop :=
  inBounds g (row + d.1) (col + d.2) = true ∧
    0 < getCell g (row + d.1).toNat (col + d.2).toNat

instance (g : Grid) (row col : Int) (d : Int × Int) :
    Decidable (liveAt g row col d) := by
  unfold liveAt
  infer_instance

lemma foldl_count_eq_countP {α : Type} (p : α → Prop) [DecidablePred p]
    (l : List α) (n : Int) :
    l.foldl (fun c a => if p a then c + 1 else c) n
      = n + (l.countP fun a => decide (p a)) := by
  induction l generalizing n with
  | nil => simp
  | cons a t ih =>
    rw [List.foldl_cons, List.countP_cons, ih]
    by_cases h : p a <;> simp [h] <;> push_cast <;> ring

lemma countNeighborCell_eq_countP (g : Grid) (row col : Int) :
    countNeighborCell g row col
      = (mooreDeltas.countP fun d => decide (liveAt g row col d)) := by
  have : countNeighborCell g row col
      = mooreDeltas.foldl
          (fun c d => if liveAt g row col d then c + 1 else c) 0 := rfl
  rw [this, foldl_count_eq_countP]
  simp

lemma countNeighborCell_nonneg (g : Grid) (row col : Int) :
    0 ≤ countNeighborCell g row col := by
  rw [countNeighborCell_eq_countP]
  exact Int.ofNat_nonneg _

lemma countP_pair_le {α : Type} (p q : α → Bool) (l : List α)
    (h : ∀ a ∈ l, p a = true → q a = true) :
    l.countP p ≤ l.countP q := by
  induction l with
  | nil => simp
  | cons a t ih =>
    rw [List.countP_cons, List.countP_cons]
    have ht := ih fun b hb => h b (List.mem_cons_of_mem _ hb)
    by_cases hp : p a = true
    · rw [if_pos hp, if_pos (h a (List.mem_cons_self a t) hp)]
      omega
    · rw [if_neg hp]
      split_ifs <;> omega

lemma not_liveAt_row_neg (g : Grid) (row col : Int) (d : Int × Int)
    (h : row + d.1 < 0) : ¬liveAt g row col d := by
  rintro ⟨hb, -⟩
  rw [inBounds, decide_eq_true_iff] at hb
  omega

lemma not_liveAt_row_ge (g : Grid) (row col : Int) (d : Int × Int)
    (h : (numRows g : Int) ≤ row + d.1) : ¬liveAt g row col d := by
  rintro ⟨hb, -⟩
  rw [inBounds, decide_eq_true_iff] at hb
  omega

lemma not_liveAt_col_neg (g : Grid) (row col : Int) (d : Int × Int)
    (h : col + d.2 < 0) : ¬liveAt g row col d := by
  rintro ⟨hb, -⟩
  rw [inBounds, decide_eq_true_iff] at hb
  omega

lemma not_liveAt_col_ge (g : Grid) (row col : Int) (d : Int × Int)
    (h : (numCols g : Int) ≤ col + d.2) : ¬liveAt g row col d := by
  rintro ⟨hb, -⟩
  rw [inBounds, decide_eq_true_iff] at hb
  omega

lemma corner_count_le_three_tl (g : Grid) : countNeighborCell g 0 0 ≤ 3 := by
  rw [countNeighborCell_eq_countP]
  have h1 := decide_eq_false (not_liveAt_row_neg g 0 0 (-1, -1) (by norm_num))
  have h2 := decide_eq_false (not_liveAt_row_neg g 0 0 (-1, 0) (by norm_num))
  have h3 := decide_eq_false (not_liveAt_row_neg g 0 0 (-1, 1) (by norm_num))
  have h4 := decide_eq_false (not_liveAt_col_neg g 0 0 (0, -1) (by norm_num))
  have h5 := decide_eq_false (not_liveAt_col_neg g 0 0 (1, -1) (by norm_num))
  have hcount : (mooreDeltas.countP fun d => decide (liveAt g 0 0 d)) ≤ 3 := by
    simp only [mooreDeltas, List.countP_cons, List.countP_nil, h1, h2, h3, h4, h5,
      Bool.false_eq_true, if_false]
    split_ifs <;> simp
  exact_mod_cast hcount

lemma corner_count_le_three_tr (g : Grid) (hc : 0 < numCols g) :
    countNeighborCell g 0 ((numCols g : Int) - 1) ≤ 3 := by
  rw [countNeighborCell_eq_countP]
  have h1 := decide_eq_false
    (not_liveAt_row_neg g 0 ((numCols g : Int) - 1) (-1, -1) (by norm_num))
  have h2 := decide_eq_false
    (not_liveAt_row_neg g 0 ((numCols g : Int) - 1) (-1, 0) (by norm_num))
  have h3 := decide_eq_false
    (not_liveAt_row_neg g 0 ((numCols g : Int) - 1) (-1, 1) (by norm_num))
  have h4 := decide_eq_false
    (not_liveAt_col_ge g 0 ((numCols g : Int) - 1) (0, 1) (by omega))
  have h5 := decide_eq_false
    (not_liveAt_col_ge g 0 ((numCols g : Int) - 1) (1, 1) (by omega))
  have hcount : (mooreDeltas.countP
      fun d => decide (liveAt g 0 ((numCols g : Int) - 1) d)) ≤ 3 := by
    simp only [mooreDeltas, List.countP_cons, List.countP_nil, h1, h2, h3, h4, h5,
      Bool.false_eq_true, if_false]
    split_ifs <;> simp
  exact_mod_cast hcount

lemma corner_count_le_three_bl (g : Grid) (hr : 0 < numRows g) :
    countNeighborCell g ((numRows g : Int) - 1) 0 ≤ 3 := by
  rw [countNeighborCell_eq_countP]
  have h1 := decide_eq_false
    (not_liveAt_row_ge g ((numRows g : Int) - 1) 0 (1, -1) (by omega))
  have h2 := decide_eq_false
    (not_liveAt_row_ge g ((numRows g : Int) - 1) 0 (1, 0) (by omega))
  have h3 := decide_eq_false
    (not_liveAt_row_ge g ((numRows g : Int) - 1) 0 (1, 1) (by omega))
  have h4 := decide_eq_false
    (not_liveAt_col_neg g ((numRows g : Int) - 1) 0 (-1, -1) (by norm_num))
  have h5 := decide_eq_false
    (not_liveAt_col_neg g ((numRows g : Int) - 1) 0 (0, -1) (by norm_num))
  have hcount : (mooreDeltas.countP
      fun d => decide (liveAt g ((numRows g : Int) - 1) 0 d)) ≤ 3 := by
    simp only [mooreDeltas, List.countP_cons, List.countP_nil, h1, h2, h3, h4, h5,
      Bool.false_eq_true, if_false]
    split_ifs <;> simp
  exact_mod_cast hcount

lemma corner_count_le_three_br (g : Grid) (hr : 0 < numRows g)
    (hc : 0 < numCols g) :
    countNeighborCell g ((numRows g : Int) - 1) ((numCols g : Int) - 1) ≤ 3 := by
  rw [countNeighborCell_eq_countP]
  have h1 := decide_eq_false (not_liveAt_row_ge g ((numRows g : Int) - 1)
    ((numCols g : Int) - 1) (1, -1) (by omega))
  have h2 := decide_eq_false (not_liveAt_row_ge g ((numRows g : Int) - 1)
    ((numCols g : Int) - 1) (1, 0) (by omega))
  have h3 := decide_eq_false (not_liveAt_row_ge g ((numRows g : Int) - 1)
    ((numCols g : Int) - 1) (1, 1) (by omega))
  have h4 := decide_eq_false (not_liveAt_col_ge g ((numRows g : Int) - 1)
    ((numCols g : Int) - 1) (-1, 1) (by omega))
  have h5 := decide_eq_false (not_liveAt_col_ge g ((numRows g : Int) - 1)
    ((numCols g : Int) - 1) (0, 1) (by omega))
  have hcount : (mooreDeltas.countP fun d => decide
      (liveAt g ((numRows g : Int) - 1) ((numCols g : Int) - 1) d)) ≤ 3 := by
    simp only [mooreDeltas, List.countP_cons, List.countP_nil, h1, h2, h3, h4, h5,
      Bool.false_eq_true, if_false]
    split_ifs <;> simp
  exact_mod_cast hcount

/-! ### Stability, clone identity, and rule-level helper lemmas -/

lemma isStableGrid_eq_true_iff (k : Int) (c n : Grid) :
    isStableGrid k c n = true
      ↔ ((∀ row ∈ n, ∀ cell ∈ row, ¬(0 < cell ∧ cell < k)) ∧ n = c) := by
  rw [isStableGrid]
  split_ifs with h
  · simp only [List.any_eq_true, decide_eq_true_iff] at h
    obtain ⟨row, hrow, cell, hcell, hprop⟩ := h
    simp only [Bool.false_eq_true, false_iff]
    rintro ⟨hall, -⟩
    exact hall row hrow cell hcell hprop
  · simp only [List.any_eq_true, decide_eq_true_iff] at h
    push_neg at h
    rw [decide_eq_true_iff]
    constructor
    · intro hcn
      exact ⟨fun row hrow cell hcell hp =>
        absurd hp.2 (not_lt.mpr (h row hrow cell hcell hp.1)), hcn.symm⟩
    · rintro ⟨-, rfl⟩
      rfl

lemma isStableGridPrev_eq_true_iff (k : Int) (c n : Grid) :
    isStableGridPrev k c n = true
      ↔ ((∀ row ∈ n, ∀ cell ∈ row, ¬(0 < cell ∧ cell < k)) ∧ n = c) := by
  rw [isStableGridPrev]
  split_ifs with h
  · simp only [List.any_eq_true, decide_eq_true_iff] at h
    obtain ⟨row, hrow, cell, hcell, hprop⟩ := h
    simp only [Bool.false_eq_true, false_iff]
    rintro ⟨hall, rfl⟩
    exact hall row hrow cell hcell hprop
  · simp only [List.any_eq_true, decide_eq_true_iff] at h
    push_neg at h
    rw [decide_eq_true_iff]
    constructor
    · intro hcn
      subst hcn
      exact ⟨fun row hrow cell hcell hp =>
        absurd hp.2 (not_lt.mpr (h row hrow cell hcell hp.1)), rfl⟩
    · rintro ⟨-, rfl⟩
      rfl

lemma nextCell_mem_range {k a : Int} (n : Int) (hk : 0 < k)
    (h0 : 0 ≤ a) (h1 : a ≤ k) :
    0 ≤ nextCell k a n ∧ nextCell k a n ≤ k := by
  unfold nextCell
  split_ifs <;> omega

lemma nextCell_alive_congr (k : Int) {a1 a2 : Int} (n : Int)
    (h1 : 0 ≤ a1) (h2 : 0 ≤ a2) (hal : 0 < a1 ↔ 0 < a2) :
    (0 < nextCell k a1 n ↔ 0 < nextCell k a2 n) := by
  unfold nextCell
  split_ifs <;> omega

lemma cloneGrid_eq_self {g : Grid} (hwf : WF g) : cloneGrid g = g := by
  refine List.ext_getElem (by simp [cloneGrid, mkGrid, numRows]) ?_
  intro r h1 h2
  simp only [cloneGrid, mkGrid, List.getElem_map, List.getElem_range]
  refine List.ext_getElem ?_ ?_
  · simp [hwf (g[r]) (List.getElem_mem h2)]
  · intro c hc1 hc2
    simp only [List.getElem_map, List.getElem_range]
    rw [getCell, List.getD_eq_getElem?_getD g r [], List.getElem?_eq_getElem h2,
      Option.getD_some, List.getD_eq_getElem?_getD, List.getElem?_eq_getElem hc2,
      Option.getD_some]

lemma inBounds_congr {g1 g2 : Grid} (hrows : numRows g1 = numRows g2)
    (hcols : numCols g1 = numCols g2) (y x : Int) :
    inBounds g1 y x = inBounds g2 y x := by
  rw [inBounds, inBounds, hrows, hcols]

lemma countNeighborCell_congr {g1 g2 : Grid}
    (hrows : numRows g1 = numRows g2) (hcols : numCols g1 = numCols g2)
    (hal : ∀ r c : Nat, r < numRows g1 → c < numCols g1 →
      (0 < getCell g1 r c ↔ 0 < getCell g2 r c)) (row col : Int) :
    countNeighborCell g1 row col = countNeighborCell g2 row col := by
  rw [countNeighborCell_eq_countP, countNeighborCell_eq_countP]
  congr 1
  apply List.countP_congr
  intro d _
  simp only [decide_eq_true_iff]
  unfold liveAt
  rw [inBounds_congr hrows hcols]
  by_cases hb : inBounds g2 (row + d.1) (col + d.2) = true
  · have hbb := hb
    rw [inBounds, decide_eq_true_iff] at hbb
    have hr : (row + d.1).toNat < numRows g1 := by omega
    have hc : (col + d.2).toNat < numCols g1 := by omega
    rw [hal _ _ hr hc]
  · simp [hb]

/-! ### Claim theorems -/

/-- C1: for every input grid and cell position, if the live Moore-neighbor
count is 0, 1, or at least 4, the cell's value in the grid returned by
`generateNextGenerationGrid` is exactly 0, regardless of the cell's input
age. -/
theorem claim1_death_by_loneliness_or_overcrowding (k : Int) (g : Grid)
    (r c : Nat)
    (h : countNeighborCell g r c = 0 ∨ countNeighborCell g r c = 1
        ∨ 4 ≤ countNeighborCell g r c) :
    getCell (generateNextGenerationGrid k g) r c = 0 := by
  by_cases hin : r < numRows g ∧ c < numCols g
  · rw [generateNext_getCell k g hin.1 hin.2, nextCell, if_pos (by omega)]
  · exact generateNext_getCell_oob k g hin

theorem claim1_witness :
    (countNeighborCell ([[5]] : Grid) 0 0 = 0 ∨
      countNeighborCell ([[5]] : Grid) 0 0 = 1 ∨
      4 ≤ countNeighborCell ([[5]] : Grid) 0 0) ∧
    getCell (generateNextGenerationGrid 12 ([[5]] : Grid)) 0 0 = 0 :=
  ⟨by decide, claim1_death_by_loneliness_or_overcrowding 12 [[5]] 0 0 (by decide)⟩

/-- C2: with exactly 2 live neighbors the cell's state is preserved (a live
cell of age `a < kMaxAge` becomes `a + 1`, a live cell at `kMaxAge` stays at
`kMaxAge`, a dead cell stays dead); with exactly 3 live neighbors the cell
is alive in the output (a dead cell becomes age 1, a live cell's age
increments by 1, capped at `kMaxAge`). -/
theorem claim2_two_preserves_three_births (k : Int) (g : Grid) (r c : Nat)
    (hk : 0 < k) (hr : r < numRows g) (hc : c < numCols g) :
    (countNeighborCell g r c = 2 →
      ((getCell g r c = 0 → getCell (generateNextGenerationGrid k g) r c = 0) ∧
       (0 < getCell g r c → getCell g r c < k →
          getCell (generateNextGenerationGrid k g) r c = getCell g r c + 1) ∧
       (getCell g r c = k → getCell (generateNextGenerationGrid k g) r c = k))) ∧
    (countNeighborCell g r c = 3 →
      ((getCell g r c = 0 → getCell (generateNextGenerationGrid k g) r c = 1) ∧
       (0 < getCell g r c → getCell g r c ≤ k →
          getCell (generateNextGenerationGrid k g) r c
            = min (getCell g r c + 1) k))) := by
  rw [generateNext_getCell k g hr hc]
  unfold nextCell
  refine ⟨fun h2 => ⟨fun h0 => ?_, fun hpos hlt => ?_, fun heq => ?_⟩,
          fun h3 => ⟨fun h0 => ?_, fun hpos hle => ?_⟩⟩ <;>
    split_ifs <;> omega

theorem claim2_witness :
    getCell (generateNextGenerationGrid 12 ([[1, 1], [1, 0]] : Grid)) 0 0 = 2 :=
  ((claim2_two_preserves_three_births 12 [[1, 1], [1, 0]] 0 0 (by decide)
      (by decide) (by decide)).1 (by decide)).2.1 (by decide) (by decide)

/-- C3: `countNeighborCell` returns the number of the at-most-8 surrounding
Moore positions that are in bounds and hold a value `> 0` (out-of-bounds
positions contribute nothing, no wraparound), so a cell at any grid corner
reports at most 3 live neighbors. -/
theorem claim3_neighbor_count_moore (g : Grid) :
    (∀ row col : Int, countNeighborCell g row col
        = (mooreDeltas.countP fun d => decide (liveAt g row col d))) ∧
    countNeighborCell g 0 0 ≤ 3 ∧
    (0 < numRows g → 0 < numCols g →
      countNeighborCell g 0 ((numCols g : Int) - 1) ≤ 3 ∧
      countNeighborCell g ((numRows g : Int) - 1) 0 ≤ 3 ∧
      countNeighborCell g ((numRows g : Int) - 1) ((numCols g : Int) - 1) ≤ 3) :=
  ⟨countNeighborCell_eq_countP g, corner_count_le_three_tl g,
   fun hr hc => ⟨corner_count_le_three_tr g hc, corner_count_le_three_bl g hr,
     corner_count_le_three_br g hr hc⟩⟩

theorem claim3_witness :
    0 < numRows ([[1, 1], [1, 1]] : Grid) ∧
    0 < numCols ([[1, 1], [1, 1]] : Grid) ∧
    countNeighborCell ([[1, 1], [1, 1]] : Grid)
      ((numRows ([[1, 1], [1, 1]] : Grid) : Int) - 1)
      ((numCols ([[1, 1], [1, 1]] : Grid) : Int) - 1) ≤ 3 :=
  ⟨by decide, by decide,
    ((claim3_neighbor_count_moore ([[1, 1], [1, 1]] : Grid)).2.2
      (by decide) (by decide)).2.2⟩

/-- C4: `isStableGrid(oldGrid, newGrid)` returns `true` iff no cell of
`newGrid` has a value strictly between 0 and `kMaxAge` (every live cell has
reached `kMaxAge`) and `newGrid` is cell-wise identical to `oldGrid`; this
holds for both revisions of the stability check. -/
theorem claim4_stability_iff (k : Int) (oldGrid newGrid : Grid) :
    (isStableGrid k oldGrid newGrid = true
      ↔ ((∀ row ∈ newGrid, ∀ cell ∈ row, ¬(0 < cell ∧ cell < k)) ∧
         newGrid = oldGrid)) ∧
    (isStableGridPrev k oldGrid newGrid = true
      ↔ ((∀ row ∈ newGrid, ∀ cell ∈ row, ¬(0 < cell ∧ cell < k)) ∧
         newGrid = oldGrid)) :=
  ⟨isStableGrid_eq_true_iff k oldGrid newGrid,
   isStableGridPrev_eq_true_iff k oldGrid newGrid⟩

theorem claim4_witness :
    isStableGrid 12 ([[12, 0]] : Grid) ([[12, 0]] : Grid) = true :=
  (claim4_stability_iff 12 [[12, 0]] [[12, 0]]).1.mpr ⟨by decide, rfl⟩

/-- C8: if `isStableGrid g (generateNextGenerationGrid g)` holds, then a
further application of `generateNextGenerationGrid` returns the same grid
(the terminal configuration is a fixed point). -/
theorem claim8_stable_fixed_point (k : Int) (g : Grid)
    (h : isStableGrid k g (generateNextGenerationGrid k g) = true) :
    generateNextGenerationGrid k (generateNextGenerationGrid k g)
      = generateNextGenerationGrid k g := by
  obtain ⟨-, heq⟩ := (isStableGrid_eq_true_iff k g _).mp h
  rw [heq]
  exact heq

theorem claim8_witness :
    generateNextGenerationGrid 12 (generateNextGenerationGrid 12 ([[0]] : Grid))
      = generateNextGenerationGrid 12 ([[0]] : Grid) :=
  claim8_stable_fixed_point 12 [[0]] (by decide)

/-- C5: `advanceGrid` computes `newGrid = generateNextGenerationGrid(g)`,
returns `stillAdvancing = !isStableGrid(g, newGrid)` and installs `newGrid`
as the current grid even on the terminal step; the timed loop and the
manual loop both advance through this same step, differing only in
trigger. -/
theorem claim5_advance_step_contract (k : Int) (g : Grid)
    (evs : List AnimEvent) (lines : List String) :
    (advanceGrid k g).1 = generateNextGenerationGrid k g ∧
    (advanceGrid k g).2
      = !isStableGrid k g (generateNextGenerationGrid k g) ∧
    runAnimation k (AnimEvent.timer :: evs) g
      = (if (advanceGrid k g).2 then runAnimation k evs (advanceGrid k g).1
         else (advanceGrid k g).1) ∧
    runManualAnimation k ("" :: lines) g
      = (if (advanceGrid k g).2
         then runManualAnimation k lines (advanceGrid k g).1
         else ManualOutcome.stopped (advanceGrid k g).1) := by
  refine ⟨rfl, rfl, rfl, ?_⟩
  simp only [runManualAnimation]
  rw [if_pos (by decide)]

/-- C7: `generateNextGenerationGrid` returns a grid of the same dimensions
as its input; `cloneGrid` reproduces the input exactly, and every output
cell is a function of the *input* grid's cell and the *input* grid's
neighbor count alone — the fold over the cloned buffer never lets a write
corrupt a later neighbor census. -/
theorem claim7_next_generation_frame (k : Int) (g : Grid) :
    numRows (generateNextGenerationGrid k g) = numRows g ∧
    numCols (generateNextGenerationGrid k g) = numCols g ∧
    (WF g → cloneGrid g = g) ∧
    (∀ r c : Nat, r < numRows g → c < numCols g →
      getCell (generateNextGenerationGrid k g) r c
        = nextCell k (getCell g r c) (countNeighborCell g r c)) :=
  ⟨generateNext_numRows k g, generateNext_numCols k g,
   fun hwf => cloneGrid_eq_self hwf,
   fun _ _ hr hc => generateNext_getCell k g hr hc⟩

theorem claim7_witness :
    cloneGrid ([[1, 2], [3, 4]] : Grid) = [[1, 2], [3, 4]] :=
  (claim7_next_generation_frame 12 [[1, 2], [3, 4]]).2.2.1 (by unfold WF; decide)

/-- C9: at the speed prompt `"1"`, `"2"`, `"3"` select 1000 ms, 500 ms,
100 ms, anything else ends the program (`none`); in manual stepping mode an
empty line advances exactly one generation, `"quit"` stops without
advancing, and any other input ends the program as an invalid command. -/
theorem claim9_command_handling (k : Int) (g : Grid) (lines : List String) :
    selectSpeed "1" = some 1000 ∧ selectSpeed "2" = some 500 ∧
    selectSpeed "3" = some 100 ∧
    (∀ s : String, s ≠ "1" → s ≠ "2" → s ≠ "3" → selectSpeed s = none) ∧
    runManualAnimation k ("quit" :: lines) g = ManualOutcome.stopped g ∧
    (∀ line : String, line ≠ "" → line ≠ "quit" →
      runManualAnimation k (line :: lines) g = ManualOutcome.exited) ∧
    runManualAnimation k ("" :: lines) g
      = (if (advanceGrid k g).2
         then runManualAnimation k lines (advanceGrid k g).1
         else ManualOutcome.stopped (advanceGrid k g).1) := by
  refine ⟨rfl, rfl, rfl, ?_, ?_, ?_, ?_⟩
  · intro s h1 h2 h3
    simp [selectSpeed, h1, h2, h3]
  · have hq : ("quit" : String).isEmpty = false := by decide
    simp [runManualAnimation, hq]
  · intro line h1 h2
    simp only [runManualAnimation]
    rw [if_neg (fun hE => h1 ((String.isEmpty_iff line).mp hE)), if_neg h2]
  · simp only [runManualAnimation]
    rw [if_pos (by decide)]

theorem claim9_witness :
    selectSpeed "4" = none ∧
    runManualAnimation 12 ["x"] ([[0]] : Grid) = ManualOutcome.exited ∧
    runManualAnimation 12 ["quit"] ([[0]] : Grid)
      = ManualOutcome.stopped [[0]] :=
  ⟨(claim9_command_handling 12 [[0]] []).2.2.2.1 "4" (by decide) (by decide)
      (by decide),
   (claim9_command_handling 12 [[0]] []).2.2.2.2.2.1 "x" (by decide) (by decide),
   (claim9_command_handling 12 [[0]] []).2.2.2.2.1⟩

lemma readGrid_cells {file : List (List Char)} {grid : Grid}
    (h : readGridFromFile file = some grid) (r c : Nat) :
    getCell grid r c = 0 ∨ getCell grid r c = 1 := by
  unfold readGridFromFile at h
  rcases hsk : skipComments file with _ | ⟨hl, _ | ⟨wl, rest⟩⟩
  · rw [hsk] at h
    simp at h
  · rw [hsk] at h
    simp at h
  · rw [hsk] at h
    dsimp only at h
    rcases hhl : stringToInteger hl with _ | hv
    · rw [hhl] at h
      simp at h
    · rcases hwl : stringToInteger wl with _ | wv
      · rw [hhl, hwl] at h
        simp at h
      · rw [hhl, hwl] at h
        dsimp only at h
        split_ifs at h with hnn
        obtain rfl := Option.some_inj.mp h
        rw [getCell_mkGrid]
        split_ifs <;> simp

lemma randomGrid_cells (height width : Nat) (flip : Nat → Nat → Bool)
    (ageGen : Nat → Nat → Int) (k : Int)
    (hage : ∀ r c : Nat, 1 ≤ ageGen r c ∧ ageGen r c ≤ k) (r c : Nat) :
    getCell (generateRandomGrid height width flip ageGen) r c = 0 ∨
      (1 ≤ getCell (generateRandomGrid height width flip ageGen) r c ∧
       getCell (generateRandomGrid height width flip ageGen) r c ≤ k) := by
  rw [generateRandomGrid, getCell_mkGrid]
  split_ifs
  · exact Or.inr (hage r c)
  · exact Or.inl rfl
  · exact Or.inl rfl

/-- C6: `generateNextGenerationGrid` preserves the invariant that every
cell lies in `[0, kMaxAge]` (ages saturate at `kMaxAge`, never exceed it,
never go negative); `readGridFromFile` produces only cells 0 or 1 and
`generateRandomGrid` only cells 0 or in `[1, kMaxAge]`, establishing the
invariant initially. -/
theorem claim6_age_range_invariant (k : Int) (hk : 0 < k) :
    (∀ g : Grid,
      (∀ r c : Nat, r < numRows g → c < numCols g →
        0 ≤ getCell g r c ∧ getCell g r c ≤ k) →
      ∀ r c : Nat, 0 ≤ getCell (generateNextGenerationGrid k g) r c ∧
        getCell (generateNextGenerationGrid k g) r c ≤ k) ∧
    (∀ (file : List (List Char)) (grid : Grid),
      readGridFromFile file = some grid →
      ∀ r c : Nat, getCell grid r c = 0 ∨ getCell grid r c = 1) ∧
    (∀ (height width : Nat) (flip : Nat → Nat → Bool)
        (ageGen : Nat → Nat → Int),
      (∀ r c : Nat, 1 ≤ ageGen r c ∧ ageGen r c ≤ k) →
      ∀ r c : Nat,
        getCell (generateRandomGrid height width flip ageGen) r c = 0 ∨
        (1 ≤ getCell (generateRandomGrid height width flip ageGen) r c ∧
         getCell (generateRandomGrid height width flip ageGen) r c ≤ k)) := by
  refine ⟨?_, ?_, ?_⟩
  · intro g hg r c
    by_cases hin : r < numRows g ∧ c < numCols g
    · rw [generateNext_getCell k g hin.1 hin.2]
      exact nextCell_mem_range _ hk (hg r c hin.1 hin.2).1 (hg r c hin.1 hin.2).2
    · rw [generateNext_getCell_oob k g hin]
      omega
  · intro file grid hread r c
    exact readGrid_cells hread r c
  · intro height width flip ageGen hage r c
    exact randomGrid_cells height width flip ageGen k hage r c

theorem claim6_witness :
    0 ≤ getCell (generateNextGenerationGrid 12 ([[1, 1], [1, 1]] : Grid)) 0 0 ∧
    getCell (generateNextGenerationGrid 12 ([[1, 1], [1, 1]] : Grid)) 0 0 ≤ 12 :=
  (claim6_age_range_invariant 12 (by decide)).1 [[1, 1], [1, 1]]
    (by
      intro r c hr hc
      simp [numRows, numCols] at hr hc
      interval_cases r <;> interval_cases c <;> decide) 0 0

/-- C10: the alive/dead pattern of the next generation depends only on the
alive/dead pattern of the input: two grids of identical dimensions (with
the data model's non-negative ages) that agree on aliveness at every cell
produce next generations that agree on aliveness at every cell. -/
theorem claim10_aliveness_noninterference (k : Int) (g1 g2 : Grid)
    (hrows : numRows g1 = numRows g2) (hcols : numCols g1 = numCols g2)
    (hnn1 : ∀ r c : Nat, r < numRows g1 → c < numCols g1 → 0 ≤ getCell g1 r c)
    (hnn2 : ∀ r c : Nat, r < numRows g1 → c < numCols g1 → 0 ≤ getCell g2 r c)
    (hal : ∀ r c : Nat, r < numRows g1 → c < numCols g1 →
      (0 < getCell g1 r c ↔ 0 < getCell g2 r c)) :
    ∀ r c : Nat, (0 < getCell (generateNextGenerationGrid k g1) r c
      ↔ 0 < getCell (generateNextGenerationGrid k g2) r c) := by
  intro r c
  by_cases hin : r < numRows g1 ∧ c < numCols g1
  · rw [generateNext_getCell k g1 hin.1 hin.2,
      generateNext_getCell k g2 (hrows ▸ hin.1) (hcols ▸ hin.2),
      countNeighborCell_congr hrows hcols hal]
    exact nextCell_alive_congr k _ (hnn1 _ _ hin.1 hin.2)
      (hnn2 _ _ hin.1 hin.2) (hal _ _ hin.1 hin.2)
  · rw [generateNext_getCell_oob k g1 hin,
      generateNext_getCell_oob k g2 (by rw [← hrows, ← hcols]; exact hin)]

theorem claim10_witness :
    (0 < getCell (generateNextGenerationGrid 12 ([[0, 5, 5]] : Grid)) 0 0
      ↔ 0 < getCell (generateNextGenerationGrid 12 ([[0, 1, 9]] : Grid)) 0 0) :=
  claim10_aliveness_noninterference 12 [[0, 5, 5]] [[0, 1, 9]] rfl rfl
    (by
      intro r c hr hc
      have hr1 : r < 1 := hr
      have hc3 : c < 3 := hc
      interval_cases r <;> interval_cases c <;> decide)
    (by
      intro r c hr hc
      have hr1 : r < 1 := hr
      have hc3 : c < 3 := hc
      interval_cases r <;> interval_cases c <;> decide)
    (by
      intro r c hr hc
      have hr1 : r < 1 := hr
      have hc3 : c < 3 := hc
      interval_cases r <;> interval_cases c <;> decide) 0 0

end Conway
